import Mathlib

/-!
Shallow embedding of the `bricks` Conan recipe (`conanfile.py`): a single
`ConanFile` subclass `BricksConan` that declares metadata, options and
requirements, and implements the lifecycle hooks `set_version`, `validate`,
`generate`, `build`, `package` and `package_id`.  External collaborators
(the conan framework's `load`, `MesonToolchain` and `Meson` wrappers) are
embedded at their documented interfaces; the recipe's own code is embedded
line by line.
-/

namespace Bricks

/-- Version of the host package manager (conan) as a numeric triple; the
recipe compares `conan_version >= Version("2.0.0")` lexicographically. -/
structure ConanVersion where
  major : Nat
  minor : Nat
  patch : Nat
deriving DecidableEq, Repr

/-- Lexicographic `>=` on version triples, as used by the recipe's check
`conan_version >= Version("2.0.0")`. -/
def ConanVersion.ge (a b : ConanVersion) : Bool :=
  decide (b.major < a.major) ||
    (decide (a.major = b.major) && (decide (b.minor < a.minor) ||
      (decide (a.minor = b.minor) && decide (b.patch ≤ a.patch))))

/-- External helper `conan.tools.files.load`: opens the file and returns its
entire contents verbatim.  It performs no whitespace stripping; recipes that
want trimmed contents call `.strip()` on the result, which this recipe does
not do. -/
def load (contents : String) : String := contents

/-- The `BricksConan` class body declares no `version` attribute, so before
`set_version` runs the recipe's version is unset. -/
def staticVersion : Option String := none

/-- Hook `set_version` (conanfile.py lines 28-30): when the host conan
version is at least 2.0.0, sets `self.version` to
`load(self, "version.txt")`; otherwise the body does nothing and the
version keeps its previous value. -/
def set_version (cv : ConanVersion) (versionTxt : String)
    (v : Option String) : Option String :=
  if cv.ge ⟨2, 0, 0⟩ then some (load versionTxt) else v

/-- Version resolution of this recipe: `set_version` applied to the
recipe's (absent) static version attribute. -/
def resolveVersion (cv : ConanVersion) (versionTxt : String) : Option String :=
  set_version cv versionTxt staticVersion

/-- Declared options with their boolean domains (conanfile.py
lines 17-21). -/
def declaredOptions : List (String × List Bool) :=
  [("shared", [true, false]), ("fPIC", [true, false]),
    ("build_coverage", [true, false])]

/-- Names of the declared options, in declaration order. -/
def declaredOptionNames : List String := declaredOptions.map Prod.fst

/-- The recipe defines no `config_options` hook, so the `ConanFile` base
default applies: the declared option set is left untouched on every target
operating system (nothing is ever deleted from `self.options`). -/
def config_options (osName : String) (names : List String) : List String :=
  names

/-- Active option names for a given target operating system: the declared
names after the (trivial) `config_options` step. -/
def activeOptionNames (osName : String) : List String :=
  config_options osName declaredOptionNames

/-- Effective values of the three declared options. -/
structure RecipeOptions where
  shared : Bool
  fPIC : Bool
  build_coverage : Bool
deriving DecidableEq, Repr

/-- Attribute `default_options` (conanfile.py line 22). -/
def default_options : RecipeOptions :=
  { shared := false, fPIC := true, build_coverage := false }

/-- Target platform settings declared by the recipe (line 16:
`settings = "os", "compiler", "build_type", "arch"`). -/
structure Settings where
  osName : String
  compiler : String
  build_type : String
  arch : String
deriving DecidableEq, Repr

/-- External `MesonToolchain` object: captures the platform settings it is
constructed from and carries a map of meson project options. -/
structure MesonToolchain where
  settings : Settings
  project_options : List (String × Bool)
deriving DecidableEq, Repr

/-- Constructor call `MesonToolchain(self)`: captures the recipe's settings;
no project options are set yet. -/
def MesonToolchain.init (s : Settings) : MesonToolchain :=
  { settings := s, project_options := [] }

/-- Hook `generate` (conanfile.py lines 39-42): builds a `MesonToolchain`,
sets the single project option `b_coverage` to
`bool(self.options.build_coverage)`, and emits the toolchain. -/
def generate (s : Settings) (opts : RecipeOptions) : MesonToolchain :=
  let tc := MesonToolchain.init s
  { tc with project_options :=
      tc.project_options ++ [("b_coverage", opts.build_coverage)] }

/-- Calls made into the external meson build tool. -/
inductive MesonCall
  | configure
  | build
  | install
deriving DecidableEq, Repr

/-- Observable state of the recipe across the build and package phases: the
trace of external build-tool invocations.  The recipe's `build` and
`package` methods set no attribute and keep no flag of their own, so this
trace is their entire observable effect. -/
structure RunState where
  calls : List MesonCall
deriving DecidableEq, Repr

/-- Hook `build` (conanfile.py lines 44-48): unless the configuration flag
`tools.build:skip_test` (default false) is true, runs meson configure then
meson build; when the flag is true the method body does nothing. -/
def build (skip_test : Bool) (st : RunState) : RunState :=
  if skip_test then st
  else { st with calls := st.calls ++ [MesonCall.configure, MesonCall.build] }

/-- Hook `package` (conanfile.py lines 50-52): unconditionally runs meson
install; the body contains no check of any prior phase. -/
def package (st : RunState) : RunState :=
  { st with calls := st.calls ++ [MesonCall.install] }

/-- One build-then-package pass starting from an empty trace. -/
def runBuildPackage (skip_test : Bool) : RunState :=
  package (build skip_test { calls := [] })

/-- Package identity (`self.info`): the settings, options and requirement
list that distinguish cache entries.  Settings and options are optional
because `info.clear()` removes them. -/
structure PackageIdentity where
  settings : Option Settings
  options : Option RecipeOptions
  requiresList : List String
deriving DecidableEq, Repr

/-- The `self.info` value handed to `package_id`: the full configuration of
the current build. -/
def initialInfo (s : Settings) (o : RecipeOptions) (reqs : List String) :
    PackageIdentity :=
  { settings := some s, options := some o, requiresList := reqs }

/-- External method `info.clear()`: drops settings, options and
requirements from the identity. -/
def PackageIdentity.clear (i : PackageIdentity) : PackageIdentity :=
  { settings := none, options := none, requiresList := [] }

/-- Hook `package_id` (conanfile.py lines 54-55): `self.info.clear()`. -/
def package_id (s : Settings) (o : RecipeOptions) (reqs : List String) :
    PackageIdentity :=
  (initialInfo s o reqs).clear

/-- Attribute `requires` (conanfile.py line 26): the recipe's declared
requirements, a single runtime requirement string. -/
def requires : List String := ["doctest/2.4.9"]

/-- The class body declares no `tool_requires` (nor `build_requires`)
attribute; the `ConanFile` default is an empty requirement list. -/
def tool_requires : List String := []

/-- Modelled from the spec for comparison with the source behavior: the
trimming the spec claims happens to the marker file's contents, namely
dropping surrounding whitespace, stated on the string's character list. -/
def trimChars (l : List Char) : List Char :=
  ((l.dropWhile Char.isWhitespace).reverse.dropWhile Char.isWhitespace).reverse

/-- Modelled from the spec: trim of a string, dropping the surrounding
whitespace of its contents. -/
def specTrim (s : String) : String := ⟨trimChars s.data⟩

/-- C1 counterexample: with conan 2.0.0 and marker-file contents " 1.2.3 "
the resolved version is the raw contents, not the trimmed string the claim
requires: `load` does not strip and the recipe applies no strip. -/
theorem set_version_not_trimmed :
    resolveVersion ⟨2, 0, 0⟩ " 1.2.3 " = some " 1.2.3 " ∧
      specTrim " 1.2.3 " = "1.2.3" ∧
      resolveVersion ⟨2, 0, 0⟩ " 1.2.3 " ≠ some (specTrim " 1.2.3 ") := by
  refine ⟨rfl, ?_, ?_⟩
  · decide
  · decide

/-- C1 (amended): for every conan major version at least 2, `set_version`
resolves the version to the marker file's entire contents verbatim,
untrimmed. -/
theorem set_version_verbatim (cv : ConanVersion) (s : String)
    (h : 2 ≤ cv.major) : resolveVersion cv s = some s := by
  have hge : cv.ge ⟨2, 0, 0⟩ = true := by
    simp only [ConanVersion.ge, Bool.or_eq_true, Bool.and_eq_true,
      decide_eq_true_eq]
    omega
  unfold resolveVersion set_version
  rw [if_pos hge]
  rfl

/-- Witness for C1 (amended) at conan 2.0.0 and contents "1.2.3". -/
theorem set_version_verbatim_witness :
    resolveVersion ⟨2, 0, 0⟩ "1.2.3" = some "1.2.3" :=
  set_version_verbatim ⟨2, 0, 0⟩ "1.2.3" (by decide)

/-- C2 counterexample: with the skip flag set, `build` leaves the recipe
state exactly as it was — identical to never invoking the build phase — so
no status flag or other observable record of the bypass exists, while the
subsequent package phase behaves as if build had never been called. -/
theorem build_skip_records_nothing :
    build true { calls := [] } = { calls := [] } ∧
      runBuildPackage true = package { calls := [] } := by
  constructor
  · rfl
  · rfl

/-- C2 (amended): with the skip flag true the Build phase is bypassed (it
changes nothing) and Package still succeeds, invoking meson install — but
the bypass is silent: the recipe sets no status flag, leaving the state
indistinguishable from one where build was never invoked. -/
theorem build_skip_silent_package_succeeds (st : RunState) :
    build true st = st ∧
      package (build true st) = { calls := st.calls ++ [MesonCall.install] } := by
  constructor
  · simp [build]
  · simp [build, package]

/-- C3 counterexample: on Windows, where position-independent code is
inapplicable, option resolution still yields all three declared options:
`fPIC` is not removed, because the recipe has no `config_options` hook. -/
theorem fPIC_present_on_windows :
    activeOptionNames "Windows" = ["shared", "fPIC", "build_coverage"] ∧
      "fPIC" ∈ activeOptionNames "Windows" := by
  constructor
  · rfl
  · decide

/-- C3 (amended): option resolution removes nothing on any platform: the
active option set is exactly the declared names everywhere, `fPIC`
included. -/
theorem active_options_never_filtered (osName : String) :
    activeOptionNames osName = declaredOptionNames := rfl

/-- C4 counterexample: invoked on a state in which Build neither ran nor
was marked skipped (the empty trace), `package` does not fail with an
OrderingError — the recipe contains no defensive check — and instead
directly invokes meson install. -/
theorem package_installs_without_build :
    package { calls := [] } = { calls := [MesonCall.install] } := rfl

/-- C4 (amended): `package` performs no ordering check at all: from every
prior state it unconditionally invokes meson install and never fails. -/
theorem package_unconditional_install (st : RunState) :
    package st = { calls := st.calls ++ [MesonCall.install] } := rfl

/-- C5 counterexample: with conan 1.59.0 (major version below 2)
`set_version` does nothing and the class declares no static version field,
so no resolved version exists at all. -/
theorem version_unset_below_2 :
    resolveVersion ⟨1, 59, 0⟩ "1.2.3" = none := by
  decide

/-- C5 (amended): below conan major version 2, version resolution leaves
the version exactly as the class body declares it, and the class body
declares no static version field, so the version stays unset. -/
theorem set_version_noop_below_2 (cv : ConanVersion) (s : String)
    (h : cv.major < 2) : resolveVersion cv s = none := by
  have hge : ¬ (cv.ge ⟨2, 0, 0⟩ = true) := by
    simp only [ConanVersion.ge, Bool.or_eq_true, Bool.and_eq_true,
      decide_eq_true_eq]
    omega
  unfold resolveVersion set_version
  rw [if_neg hge]
  rfl

/-- Witness for C5 (amended) at conan 1.59.0. -/
theorem set_version_noop_below_2_witness :
    resolveVersion ⟨1, 59, 0⟩ "2.0.0" = none :=
  set_version_noop_below_2 ⟨1, 59, 0⟩ "2.0.0" (by decide)

/-- C6: `generate` maps `build_coverage` directly onto the meson
`b_coverage` project option — the emitted flag is exactly the option's
value, so it is true exactly when `build_coverage` is true — and the
platform settings pass through unchanged. -/
theorem generate_b_coverage_direct (s : Settings) (opts : RecipeOptions) :
    (generate s opts).project_options = [("b_coverage", opts.build_coverage)] ∧
      ((generate s opts).project_options.lookup "b_coverage" =
        some opts.build_coverage) ∧
      (generate s opts).settings = s := by
  refine ⟨rfl, ?_, rfl⟩
  simp [generate, MesonToolchain.init]

/-- C7: `package_id` gives the same identity to two configurations that
agree outside build type and CPU architecture: the recipe clears its whole
identity, so any two such configurations collapse to the same
`PackageIdentity`. -/
theorem package_id_ignores_buildtype_arch (s1 s2 : Settings)
    (o : RecipeOptions) (reqs : List String)
    (hos : s1.osName = s2.osName) (hc : s1.compiler = s2.compiler) :
    package_id s1 o reqs = package_id s2 o reqs := rfl

/-- Witness for C7: same identity for a Release x86_64 build and a Debug
armv8 build on otherwise identical Linux gcc configurations. -/
theorem package_id_ignores_buildtype_arch_witness :
    package_id ⟨"Linux", "gcc", "Release", "x86_64"⟩ default_options [] =
      package_id ⟨"Linux", "gcc", "Debug", "armv8"⟩ default_options [] :=
  package_id_ignores_buildtype_arch ⟨"Linux", "gcc", "Release", "x86_64"⟩
    ⟨"Linux", "gcc", "Debug", "armv8"⟩ default_options [] rfl rfl

/-- C8 counterexample: the recipe declares no build-time tool requirement,
so the claimed pair of requirement declarations does not exist; only the
runtime requirement is declared. -/
theorem no_tool_requires_declared : tool_requires = [] := rfl

/-- C8 (amended): the recipe declares exactly one requirement, the runtime
requirement "doctest/2.4.9", passed through to the resolver; it declares no
build-time tool requirement. -/
theorem requires_runtime_only :
    requires = ["doctest/2.4.9"] ∧ tool_requires = [] := by
  constructor
  · rfl
  · rfl

/-- C9: `package_id` clears the entire identity: any two configurations,
whatever their settings, options or requirement lists, produce the
identical `PackageIdentity`. -/
theorem package_id_constant (s1 s2 : Settings) (o1 o2 : RecipeOptions)
    (r1 r2 : List String) :
    package_id s1 o1 r1 = package_id s2 o2 r2 := rfl

/-- C10: with the skip flag true, a full build-then-package pass makes no
configure and no build call; the only build-tool invocation is a single
install, with no configure preceding it in that pass. -/
theorem skip_build_trace :
    runBuildPackage true = { calls := [MesonCall.install] } ∧
      MesonCall.configure ∉ (runBuildPackage true).calls ∧
      MesonCall.build ∉ (runBuildPackage true).calls := by
  refine ⟨rfl, ?_, ?_⟩
  · decide
  · decide

end Bricks
